import Mathlib

/-!
Verification of `cloud_agent_example.py`: a `CloudAgentDelegate` class that
gates three image transforms (sepia, resize, blur) behind a boolean
connection flag.

Embedding conventions:
* An image (`np.ndarray` of shape height × width × 3, dtype uint8) is a list
  of rows, each row a list of pixels, each pixel a triple of natural-number
  channel samples.
* The sepia kernel's decimal literals are embedded as exact rationals and the
  per-pixel arithmetic of `cv2.transform` is done in ℚ. On a uint8 source,
  `cv2.transform` returns an array of the same uint8 depth: each channel is
  `saturate_cast<uchar>` of the double dot product, i.e. rounded to the
  nearest integer (ties to even, OpenCV's `cvRound`) and clamped to
  `[0, 255]` inside the library. The source's subsequent
  `np.clip(…, 0, 255)` and `.astype(np.uint8)` act on that saturated uint8
  array, so the clip is kept (a value-level no-op) and the dtype-preserving
  cast is the identity. The spec's competing "clamp then truncate" reading
  is kept as a separate, clearly spec-side per-pixel definition for
  comparison.
* `cv2.resize` and `cv2.GaussianBlur` are calls into the external OpenCV
  library, not code of this repository; they are modelled at the level of
  their documented contracts (argument validation and output geometry are
  faithful; the interpolation / convolution weights are a concrete
  executable stand-in, since no claim constrains the resampled values).
* The Python methods mutate nothing: `process_image_remote` is embedded
  state-passingly, returning the result together with the delegate state and
  the caller's input buffer after the call, so frame claims are statable.
-/

/-- A pixel: a triple of 8-bit channel samples (values 0..255 in uint8 data). -/
abbrev Pixel : Type := ℕ × ℕ × ℕ

/-- A pixel with rational channel values (intermediate float arithmetic). -/
abbrev QPixel : Type := ℚ × ℚ × ℚ

/-- An image: rows of pixels (numpy shape height × width × 3). -/
abbrev Image : Type := List (List Pixel)

/-- Row `i` of an image (empty row out of range). -/
def rowAt (img : Image) (i : ℕ) : List Pixel := img.getD i []

/-- Pixel `j` of a row (black pixel out of range). -/
def pixAt (row : List Pixel) (j : ℕ) : Pixel := row.getD j (0, 0, 0)

/-- Clamp an integer index into `[0, n)` (border replication). -/
def clampIdx (n : ℕ) (t : ℤ) : ℕ :=
  if t < 0 then 0 else min t.toNat (n - 1)

/-- Sample an image at integer coordinates with clamped (replicated) borders. -/
def sampleAt (img : Image) (i j : ℤ) : Pixel :=
  let row := rowAt img (clampIdx img.length i)
  pixAt row (clampIdx row.length j)

/-- The fixed 3×3 sepia color-mixing matrix of `_apply_sepia_local`
(`np.array([[0.272, 0.534, 0.131], [0.349, 0.686, 0.168],
[0.393, 0.769, 0.189]])`), as exact rationals, one triple per matrix row. -/
def sepia_kernel : QPixel × QPixel × QPixel :=
  ((272/1000, 534/1000, 131/1000),
   (349/1000, 686/1000, 168/1000),
   (393/1000, 769/1000, 189/1000))

/-- Dot product of a matrix row with a pixel's channel triple. -/
def dot3 (r : QPixel) (p : Pixel) : ℚ :=
  r.1 * (p.1 : ℚ) + r.2.1 * (p.2.1 : ℚ) + r.2.2 * (p.2.2 : ℚ)

/-- OpenCV's `cvRound`: round to the nearest integer, ties to even. -/
def cvRound (q : ℚ) : ℤ :=
  let f := ⌊q⌋
  let r := q - (f : ℚ)
  if r < 1/2 then f
  else if 1/2 < r then f + 1
  else if f % 2 = 0 then f else f + 1

/-- OpenCV's `saturate_cast<uchar>`: round to nearest (ties to even), then
clamp into the uint8 range `[0, 255]`. -/
def saturateCastUint8 (q : ℚ) : ℕ := (min (max (cvRound q) 0) 255).toNat

/-- Model of `cv2.transform(src, m)` for a 3×3 matrix `m` on a uint8 source:
the output has the source's uint8 depth, each output channel being
`saturate_cast<uchar>` of the exact dot product of the matrix row with the
input channel triple. -/
def cv2transform (src : Image) (m : QPixel × QPixel × QPixel) : Image :=
  src.map (List.map fun p =>
    (saturateCastUint8 (dot3 m.1 p),
     saturateCastUint8 (dot3 m.2.1 p),
     saturateCastUint8 (dot3 m.2.2 p)))

/-- `np.clip(·, 0, 255)` on one uint8 pixel (elementwise
`min(max(x, 0), 255)`; a value-level no-op on saturated uint8 data, kept
because the source line executes it). -/
def npClipPix (p : Pixel) : Pixel :=
  (min (max p.1 0) 255, min (max p.2.1 0) 255, min (max p.2.2 0) 255)

/-- Embedding of `CloudAgentDelegate._apply_sepia_local`: transform by the
fixed kernel (which saturates into uint8 inside the library), then
`np.clip(…, 0, 255)`; the trailing `.astype(np.uint8)` on an already-uint8
array is the identity on values. -/
def apply_sepia_local (image : Image) : Image :=
  let sepia := cv2transform image sepia_kernel
  sepia.map (List.map npClipPix)

/-- Code-side per-pixel sepia map: matrix row · channel triple,
saturate-cast to uint8 (round to nearest, ties to even, clamp), the fusion
of the stages of `apply_sepia_local`. -/
def sepiaPixelSat (p : Pixel) : Pixel :=
  (saturateCastUint8 (dot3 sepia_kernel.1 p),
   saturateCastUint8 (dot3 sepia_kernel.2.1 p),
   saturateCastUint8 (dot3 sepia_kernel.2.2 p))

/-- Spec-side clamp `np.clip(x, 0, 255)` on one exact channel value, part of
the spec's reading of the sepia pipeline. -/
def npClip255 (q : ℚ) : ℚ := min (max q 0) 255

/-- Spec-side truncating 8-bit cast on a clipped (hence non-negative)
channel value, where truncation toward zero is the floor; part of the spec's
reading of the sepia pipeline. -/
def astypeUint8 (q : ℚ) : ℕ := (⌊q⌋).toNat

/-- Spec-side per-pixel sepia map, written the way the spec states it
(matrix row · channel triple, clamped to `[0, 255]`, truncated to 8 bits),
to be compared with the saturating `apply_sepia_local` from the source. -/
def sepiaPixelSpec (p : Pixel) : Pixel :=
  (astypeUint8 (npClip255 (dot3 sepia_kernel.1 p)),
   astypeUint8 (npClip255 (dot3 sepia_kernel.2.1 p)),
   astypeUint8 (npClip255 (dot3 sepia_kernel.2.2 p)))

/-- One 1-D smoothing weight: row `K - 1` of Pascal's triangle, normalised.
Stands in for OpenCV's sigma-derived Gaussian samples (no claim constrains
the exact weights, only that the kernel is derived from the size alone under
the zero-sigma convention). -/
def binomWeight (K a : ℕ) : ℚ := (Nat.choose (K - 1) a : ℚ) / 2 ^ (K - 1)

/-- Sum of `f` over `0, …, K - 1`. -/
def wsum (K : ℕ) (f : ℕ → ℚ) : ℚ := ((List.range K).map f).sum

/-- One blurred channel at position `(i, j)`: weighted sum of the K×K
neighbourhood with replicated borders. -/
def blurChan (img : Image) (K i j : ℕ) (ch : Pixel → ℕ) : ℚ :=
  let r : ℕ := (K - 1) / 2
  wsum K fun a => wsum K fun b =>
    binomWeight K a * binomWeight K b *
      (ch (sampleAt img ((i : ℤ) + a - r) ((j : ℤ) + b - r)) : ℚ)

/-- One blurred pixel at position `(i, j)`. -/
def blurPixel (img : Image) (K i j : ℕ) : Pixel :=
  ((⌊blurChan img K i j (fun p => p.1)⌋).toNat,
   (⌊blurChan img K i j (fun p => p.2.1)⌋).toNat,
   (⌊blurChan img K i j (fun p => p.2.2)⌋).toNat)

/-- Geometry-preserving smoothing pass: every position of the input gets a
blurred pixel, so the output has exactly the input's row/column structure. -/
def blurCore (img : Image) (K : ℕ) : Image :=
  (List.range img.length).map fun i =>
    (List.range (rowAt img i).length).map fun j => blurPixel img K i j

/-- Model of `cv2.GaussianBlur(image, (K, K), 0)`: the library rejects a
kernel size that is not odd and positive (with sigma 0) and an empty source;
otherwise it returns a smoothed image of the same dimensions, with the
convolution weights derived from the kernel size alone (zero-sigma
convention, here modelled by binomial weights). -/
def cv2GaussianBlur (image : Image) (K : ℕ) : Option Image :=
  if K % 2 = 1 ∧ image ≠ [] ∧ ∀ row ∈ image, row ≠ [] then
    some (blurCore image K)
  else
    none

/-- Model of `cv2.resize(image, (W, H))`: the library rejects an empty source
or a zero target dimension; otherwise it returns an image of height `H` and
width `W` (numpy axis convention: `size` is a (width, height) pair and the
output shape is `(H, W, 3)`), resampled here by nearest-neighbour index
mapping (the spec fixes only the output dimensions, not the interpolation). -/
def cv2resize (image : Image) (size : ℕ × ℕ) : Option Image :=
  let W := size.1
  let H := size.2
  let srcH := image.length
  let srcW := (image.headD []).length
  if W = 0 ∨ H = 0 ∨ srcH = 0 ∨ srcW = 0 then
    none
  else
    some ((List.range H).map fun j =>
      (List.range W).map fun i =>
        pixAt (rowAt image (j * srcH / H)) (i * srcW / W))

/-- Errors surfaced by `process_image_remote`: the repository's own
`RuntimeError` guard, and the error OpenCV raises on invalid arguments. -/
inductive ProcError : Type where
  | NotConnected : ProcError
  | CvError : ProcError
deriving DecidableEq, Repr

/-- The `**kwargs` parameter mapping: the two keys the source reads. -/
structure Kwargs : Type where
  size : Option (ℕ × ℕ)
  kernel_size : Option ℕ
deriving DecidableEq, Repr

/-- The delegate object: an endpoint string and a connection flag, its only
fields. -/
structure CloudAgentDelegate : Type where
  endpoint : String
  connected : Bool
deriving DecidableEq, Repr

/-- Embedding of `CloudAgentDelegate.__init__`: `self.endpoint = endpoint or
"http://localhost:8000"` (Python `or` also replaces an empty string), and
`self.connected = False`. -/
def CloudAgentDelegate.init (endpoint : Option String) : CloudAgentDelegate :=
  ⟨(match endpoint with
    | none => "http://localhost:8000"
    | some s => if s = "" then "http://localhost:8000" else s),
   false⟩

/-- Embedding of `CloudAgentDelegate.connect`: sets `connected = True` and
returns `self.connected`; paired here with the post-state. -/
def CloudAgentDelegate.connect (d : CloudAgentDelegate) :
    Bool × CloudAgentDelegate :=
  let d' : CloudAgentDelegate := ⟨d.endpoint, true⟩
  (d'.connected, d')

/-- Embedding of `CloudAgentDelegate.disconnect`: sets `connected = False`,
returns nothing. -/
def CloudAgentDelegate.disconnect (d : CloudAgentDelegate) :
    CloudAgentDelegate :=
  ⟨d.endpoint, false⟩

/-- Embedding of `CloudAgentDelegate.process_image_remote`. The result is the
raised-or-returned value, the delegate state after the call, and the content
of the caller's image buffer after the call (no statement of the method
writes into either, so both are threaded through each branch unchanged). -/
def CloudAgentDelegate.process_image_remote (d : CloudAgentDelegate)
    (image : Image) (op : String) (kwargs : Kwargs) :
    Except ProcError Image × CloudAgentDelegate × Image :=
  if d.connected = false then
    (Except.error ProcError.NotConnected, d, image)
  else if op = "sepia" then
    (Except.ok (apply_sepia_local image), d, image)
  else if op = "resize" then
    let target_size := kwargs.size.getD (800, 600)
    match cv2resize image target_size with
    | some out => (Except.ok out, d, image)
    | none => (Except.error ProcError.CvError, d, image)
  else if op = "blur" then
    let kernel_size := kwargs.kernel_size.getD 15
    match cv2GaussianBlur image kernel_size with
    | some out => (Except.ok out, d, image)
    | none => (Except.error ProcError.CvError, d, image)
  else
    (Except.ok image, d, image)

/-- The demo image of `main`: a 400 × 600 × 3 array filled with the constant
color `(100, 150, 200)`. -/
def demo_image : Image :=
  List.replicate 400 (List.replicate 600 ((100 : ℕ), (150 : ℕ), (200 : ℕ)))

/-! ### Helper lemmas -/

theorem connect_snd_connected (d : CloudAgentDelegate) :
    d.connect.2.connected = true := rfl

theorem processDisconnected (d : CloudAgentDelegate) (img : Image) (op : String)
    (kw : Kwargs) (h : d.connected = false) :
    d.process_image_remote img op kw
      = (Except.error ProcError.NotConnected, d, img) := by
  simp [CloudAgentDelegate.process_image_remote, h]

theorem processFrame (d : CloudAgentDelegate) (img : Image) (op : String)
    (kw : Kwargs) :
    (d.process_image_remote img op kw).2 = (d, img) := by
  unfold CloudAgentDelegate.process_image_remote
  dsimp only
  repeat' split
  all_goals rfl

theorem processSepiaConnected (d : CloudAgentDelegate) (img : Image)
    (kw : Kwargs) (h : d.connected = true) :
    d.process_image_remote img "sepia" kw
      = (Except.ok (apply_sepia_local img), d, img) := by
  simp [CloudAgentDelegate.process_image_remote, h]

theorem processFstConnected (d : CloudAgentDelegate) (img : Image) (op : String)
    (kw : Kwargs) (h : d.connected = true) :
    (d.process_image_remote img op kw).1 =
      (if op = "sepia" then Except.ok (apply_sepia_local img)
       else if op = "resize" then
         match cv2resize img (kw.size.getD (800, 600)) with
         | some out => Except.ok out
         | none => Except.error ProcError.CvError
       else if op = "blur" then
         match cv2GaussianBlur img (kw.kernel_size.getD 15) with
         | some out => Except.ok out
         | none => Except.error ProcError.CvError
       else Except.ok img) := by
  simp only [CloudAgentDelegate.process_image_remote, h]
  repeat' split
  all_goals simp_all

/-! ### Claim theorems -/

/-- C1: with the connection flag down — as constructed, and again after any
`disconnect` — `process_image_remote` fails with the NotConnected error,
returns no output, runs no transform, and leaves the delegate state and the
input buffer unchanged. -/
theorem c1_process_not_connected :
    (∀ (d : CloudAgentDelegate) (img : Image) (op : String) (kw : Kwargs),
        d.connected = false →
          d.process_image_remote img op kw
            = (Except.error ProcError.NotConnected, d, img))
    ∧ (∀ e : Option String, (CloudAgentDelegate.init e).connected = false)
    ∧ (∀ d : CloudAgentDelegate, d.disconnect.connected = false) :=
  ⟨fun d img op kw h => processDisconnected d img op kw h,
   fun _ => rfl, fun _ => rfl⟩

/-- C1 witness: the freshly constructed delegate rejects a sepia request. -/
theorem c1_witness :
    (CloudAgentDelegate.init none).process_image_remote demo_image "sepia"
        ⟨none, none⟩
      = (Except.error ProcError.NotConnected, CloudAgentDelegate.init none,
          demo_image) :=
  c1_process_not_connected.1 (CloudAgentDelegate.init none) demo_image "sepia"
    ⟨none, none⟩ rfl

/-- C6: the connection flag is a two-state machine: construction starts
disconnected, `connect` unconditionally sets the flag and returns the new
state, `disconnect` unconditionally clears it, returns nothing else, and is
idempotent. -/
theorem c6_connection_state_machine :
    (∀ e : Option String, (CloudAgentDelegate.init e).connected = false)
    ∧ (∀ d : CloudAgentDelegate,
        d.connect = (true, (⟨d.endpoint, true⟩ : CloudAgentDelegate))
        ∧ d.connect.1 = d.connect.2.connected
        ∧ d.disconnect = (⟨d.endpoint, false⟩ : CloudAgentDelegate)
        ∧ d.disconnect.disconnect = d.disconnect) :=
  ⟨fun _ => rfl, fun _ => ⟨rfl, rfl, rfl, rfl⟩⟩

/-- C8: no call to `process_image_remote` — any operation, any parameters,
connected or not — writes into the caller's input buffer: after the call the
buffer holds exactly the image that was passed in. -/
theorem c8_no_input_mutation (d : CloudAgentDelegate) (img : Image)
    (op : String) (kw : Kwargs) :
    (d.process_image_remote img op kw).2.2 = img := by
  rw [processFrame]

/-- C9: `process_image_remote` never changes the delegate: the post-state is
the pre-state, so `connected` and `endpoint` are untouched; and a delegate
consists of nothing but those two fields. -/
theorem c9_delegate_state_frame (d : CloudAgentDelegate) (img : Image)
    (op : String) (kw : Kwargs) :
    (d.process_image_remote img op kw).2.1 = d
    ∧ (d.process_image_remote img op kw).2.1.connected = d.connected
    ∧ (d.process_image_remote img op kw).2.1.endpoint = d.endpoint
    ∧ ∀ d' : CloudAgentDelegate,
        d' = (⟨d'.endpoint, d'.connected⟩ : CloudAgentDelegate) := by
  have h : (d.process_image_remote img op kw).2.1 = d := by rw [processFrame]
  exact ⟨h, by rw [h], by rw [h], fun _ => rfl⟩

/-- C10: `process_image_remote` is deterministic: two delegates whose
connection flags agree produce the same raised-or-returned value on the same
image, operation and parameters. -/
theorem c10_process_deterministic (d d' : CloudAgentDelegate) (img : Image)
    (op : String) (kw : Kwargs) (h : d.connected = d'.connected) :
    (d.process_image_remote img op kw).1
      = (d'.process_image_remote img op kw).1 := by
  cases hb : d'.connected with
  | false =>
      have hd : d.connected = false := by rw [h, hb]
      rw [processDisconnected d img op kw hd, processDisconnected d' img op kw hb]
  | true =>
      have hd : d.connected = true := by rw [h, hb]
      rw [processFstConnected d img op kw hd, processFstConnected d' img op kw hb]

/-- C10 witness: two delegates with different endpoints but equal flags agree
on a concrete call. -/
theorem c10_witness :
    ((CloudAgentDelegate.init none).process_image_remote demo_image "sepia"
        ⟨none, none⟩).1
      = ((CloudAgentDelegate.mk "elsewhere" false).process_image_remote
          demo_image "sepia" ⟨none, none⟩).1 :=
  c10_process_deterministic (CloudAgentDelegate.init none)
    (CloudAgentDelegate.mk "elsewhere" false) demo_image "sepia" ⟨none, none⟩ rfl

theorem saturateLe (q : ℚ) : saturateCastUint8 q ≤ 255 := by
  unfold saturateCastUint8
  exact Int.toNat_le.mpr (by exact_mod_cast min_le_right _ _)

theorem clip_of_sat (q : ℚ) :
    min (max (saturateCastUint8 q) 0) 255 = saturateCastUint8 q := by
  rw [max_eq_left (Nat.zero_le _), min_eq_left (saturateLe q)]

theorem applySepiaAsMapSat (img : Image) :
    apply_sepia_local img = img.map (List.map sepiaPixelSat) := by
  unfold apply_sepia_local cv2transform
  simp [List.map_map, Function.comp_def, npClipPix, sepiaPixelSat,
    clip_of_sat]
  intro row _ c1 c2 c3 _
  exact ⟨saturateLe _, saturateLe _, saturateLe _⟩

theorem applySepiaMapLength (img : Image) :
    (apply_sepia_local img).map List.length = img.map List.length := by
  rw [applySepiaAsMapSat]
  simp [List.map_map, Function.comp_def]

/-- C5: after `connect`, any operation name other than sepia, resize and blur
returns the input image itself, raising no error and changing nothing. -/
theorem c5_unknown_op_identity (d : CloudAgentDelegate) (img : Image)
    (op : String) (kw : Kwargs)
    (h1 : op ≠ "sepia") (h2 : op ≠ "resize") (h3 : op ≠ "blur") :
    d.connect.2.process_image_remote img op kw
      = (Except.ok img, d.connect.2, img) := by
  simp [CloudAgentDelegate.process_image_remote, CloudAgentDelegate.connect,
    h1, h2, h3]

/-- C5 witness: the demo image passes through the operation `"unknown_op"`
untouched. -/
theorem c5_witness :
    (CloudAgentDelegate.init none).connect.2.process_image_remote demo_image
        "unknown_op" ⟨none, none⟩
      = (Except.ok demo_image, (CloudAgentDelegate.init none).connect.2,
          demo_image) :=
  c5_unknown_op_identity (CloudAgentDelegate.init none) demo_image
    "unknown_op" ⟨none, none⟩ (by decide) (by decide) (by decide)

theorem blurCoreMapLength (img : Image) (K : ℕ) :
    (blurCore img K).map List.length = img.map List.length := by
  unfold blurCore
  apply List.ext_getElem
  · simp
  · intro n h1 h2
    simp only [List.length_map] at h2
    simp [rowAt, List.getD_eq_getElem?_getD, List.getElem?_eq_getElem h2]

theorem floor267half : (⌊(267/2 : ℚ)⌋ : ℤ) = 133 := by
  rw [Int.floor_eq_iff]
  norm_num

theorem floor857fifth : (⌊(857/5 : ℚ)⌋ : ℤ) = 171 := by
  rw [Int.floor_eq_iff]
  norm_num

theorem floor3849twentieth : (⌊(3849/20 : ℚ)⌋ : ℤ) = 192 := by
  rw [Int.floor_eq_iff]
  norm_num

theorem sepiaDemoPixel : sepiaPixelSpec (100, 150, 200) = (133, 171, 192) := by
  have h0 : dot3 sepia_kernel.1 (100, 150, 200) = 267/2 := by
    norm_num [dot3, sepia_kernel]
  have h0b : dot3 sepia_kernel.2.1 (100, 150, 200) = 857/5 := by
    norm_num [dot3, sepia_kernel]
  have h0c : dot3 sepia_kernel.2.2 (100, 150, 200) = 3849/20 := by
    norm_num [dot3, sepia_kernel]
  have h1 : npClip255 (267/2) = 267/2 := by
    unfold npClip255
    rw [max_eq_left (by norm_num : (0:ℚ) ≤ 267/2),
      min_eq_left (by norm_num : (267/2:ℚ) ≤ 255)]
  have h1b : npClip255 (857/5) = 857/5 := by
    unfold npClip255
    rw [max_eq_left (by norm_num : (0:ℚ) ≤ 857/5),
      min_eq_left (by norm_num : (857/5:ℚ) ≤ 255)]
  have h1c : npClip255 (3849/20) = 3849/20 := by
    unfold npClip255
    rw [max_eq_left (by norm_num : (0:ℚ) ≤ 3849/20),
      min_eq_left (by norm_num : (3849/20:ℚ) ≤ 255)]
  unfold sepiaPixelSpec astypeUint8
  rw [h0, h0b, h0c, h1, h1b, h1c, floor267half, floor857fifth,
    floor3849twentieth]
  rfl

theorem cvRound267 : cvRound (267/2) = 134 := by
  simp only [cvRound]
  rw [floor267half]
  norm_num

theorem cvRound857 : cvRound (857/5) = 171 := by
  simp only [cvRound]
  rw [floor857fifth]
  norm_num

theorem cvRound3849 : cvRound (3849/20) = 192 := by
  simp only [cvRound]
  rw [floor3849twentieth]
  norm_num

theorem satDemo1 : saturateCastUint8 (267/2) = 134 := by
  unfold saturateCastUint8
  rw [cvRound267]
  decide

theorem satDemo2 : saturateCastUint8 (857/5) = 171 := by
  unfold saturateCastUint8
  rw [cvRound857]
  decide

theorem satDemo3 : saturateCastUint8 (3849/20) = 192 := by
  unfold saturateCastUint8
  rw [cvRound3849]
  decide

theorem sepiaPixelSatDemo :
    sepiaPixelSat (100, 150, 200) = (134, 171, 192) := by
  have h0 : dot3 sepia_kernel.1 (100, 150, 200) = 267/2 := by
    norm_num [dot3, sepia_kernel]
  have h0b : dot3 sepia_kernel.2.1 (100, 150, 200) = 857/5 := by
    norm_num [dot3, sepia_kernel]
  have h0c : dot3 sepia_kernel.2.2 (100, 150, 200) = 3849/20 := by
    norm_num [dot3, sepia_kernel]
  unfold sepiaPixelSat
  rw [h0, h0b, h0c, satDemo1, satDemo2, satDemo3]

/-- C3: after `connect`, a blur request resolves the kernel size from
`kernel_size` (15 when absent) and, for an odd positive size on a nonempty
image, returns the smoothed image, which has the same dimensions as the
input. -/
theorem c3_blur_dims (d : CloudAgentDelegate) (img : Image) (K : ℕ)
    (kw : Kwargs) (hk : kw.kernel_size = some K) (hodd : K % 2 = 1)
    (hne : img ≠ []) (hrows : ∀ row ∈ img, row ≠ []) :
    (d.connect.2.process_image_remote img "blur" kw).1
        = Except.ok (blurCore img K)
    ∧ (blurCore img K).map List.length = img.map List.length
    ∧ ∀ s : Option (ℕ × ℕ),
        d.connect.2.process_image_remote img "blur" ⟨s, none⟩
          = d.connect.2.process_image_remote img "blur" ⟨s, some 15⟩ := by
  refine ⟨?_, blurCoreMapLength img K, fun s => rfl⟩
  rw [processFstConnected _ _ _ _ (connect_snd_connected d)]
  simp [cv2GaussianBlur, hk, hodd, hne]
  rw [if_pos hrows]

/-- C3 witness: a 1×1 image blurred with kernel size 1. -/
theorem c3_witness :
    ((CloudAgentDelegate.init none).connect.2.process_image_remote
        [[((10 : ℕ), (20 : ℕ), (30 : ℕ))]] "blur" ⟨none, some 1⟩).1
        = Except.ok (blurCore [[((10 : ℕ), (20 : ℕ), (30 : ℕ))]] 1)
    ∧ (blurCore [[((10 : ℕ), (20 : ℕ), (30 : ℕ))]] 1).map List.length
        = [[((10 : ℕ), (20 : ℕ), (30 : ℕ))]].map List.length
    ∧ ∀ s : Option (ℕ × ℕ),
        (CloudAgentDelegate.init none).connect.2.process_image_remote
            [[((10 : ℕ), (20 : ℕ), (30 : ℕ))]] "blur" ⟨s, none⟩
          = (CloudAgentDelegate.init none).connect.2.process_image_remote
              [[((10 : ℕ), (20 : ℕ), (30 : ℕ))]] "blur" ⟨s, some 15⟩ :=
  c3_blur_dims (CloudAgentDelegate.init none) [[((10 : ℕ), (20 : ℕ), (30 : ℕ))]]
    1 ⟨none, some 1⟩ rfl rfl (by decide) (by decide)

/-- C4: after `connect`, a resize request targets `size` (800×600 when
absent) and, for nonzero targets on a nonempty image, returns an image of
exactly the target dimensions: `size = (W, H)` yields height `H` and width
`W`. -/
theorem c4_resize_dims (d : CloudAgentDelegate) (img : Image) (W H : ℕ)
    (kw : Kwargs) (hs : kw.size = some (W, H)) (hW : W ≠ 0) (hH : H ≠ 0)
    (hne : img ≠ []) (hrow : img.headD [] ≠ []) :
    (∃ out, (d.connect.2.process_image_remote img "resize" kw).1
          = Except.ok out
        ∧ out.length = H ∧ ∀ row ∈ out, row.length = W)
    ∧ ∀ ks : Option ℕ,
        d.connect.2.process_image_remote img "resize" ⟨none, ks⟩
          = d.connect.2.process_image_remote img "resize"
              ⟨some (800, 600), ks⟩ := by
  have h3 : img.length ≠ 0 := by simpa [List.length_eq_zero] using hne
  have h4 : (img.headD []).length ≠ 0 := by
    simpa [List.length_eq_zero] using hrow
  have hguard : ¬(W = 0 ∨ H = 0 ∨ img.length = 0
      ∨ (img.headD []).length = 0) := by
    push_neg
    exact ⟨hW, hH, h3, h4⟩
  have hres : cv2resize img (W, H)
      = some ((List.range H).map fun j => (List.range W).map fun i =>
          pixAt (rowAt img (j * img.length / H))
            (i * (img.headD []).length / W)) := by
    unfold cv2resize
    dsimp only
    rw [if_neg hguard]
  refine ⟨⟨(List.range H).map fun j => (List.range W).map fun i =>
      pixAt (rowAt img (j * img.length / H))
        (i * (img.headD []).length / W), ?_, by simp, ?_⟩, fun ks => rfl⟩
  · rw [processFstConnected _ _ _ _ (connect_snd_connected d)]
    simp [hs, hres]
  · intro row hmem
    simp only [List.mem_map] at hmem
    obtain ⟨j, hj, rfl⟩ := hmem
    simp

/-- C4 witness: a 1×1 image resized to width 2, height 3. -/
theorem c4_witness :
    (∃ out, ((CloudAgentDelegate.init none).connect.2.process_image_remote
          [[((1 : ℕ), (2 : ℕ), (3 : ℕ))]] "resize" ⟨some (2, 3), none⟩).1
          = Except.ok out
        ∧ out.length = 3 ∧ ∀ row ∈ out, row.length = 2)
    ∧ ∀ ks : Option ℕ,
        (CloudAgentDelegate.init none).connect.2.process_image_remote
            [[((1 : ℕ), (2 : ℕ), (3 : ℕ))]] "resize" ⟨none, ks⟩
          = (CloudAgentDelegate.init none).connect.2.process_image_remote
              [[((1 : ℕ), (2 : ℕ), (3 : ℕ))]] "resize"
              ⟨some (800, 600), ks⟩ :=
  c4_resize_dims (CloudAgentDelegate.init none) [[((1 : ℕ), (2 : ℕ), (3 : ℕ))]]
    2 3 ⟨some (2, 3), none⟩ rfl (by decide) (by decide) (by decide) (by decide)

/-- C2 counterexample: at the single-pixel image (100, 150, 200), after
`connect`, the sepia operation does not return the spec's
clamp-then-truncate pixel `sepiaPixelSpec (100, 150, 200) = (133, 171,
192)`: channel 0 of the matrix product is 133.5, which the library's uint8
saturation rounds up to 134 while truncation gives 133. -/
theorem c2_counterexample :
    ((CloudAgentDelegate.init none).connect.2.process_image_remote
        [[((100 : ℕ), (150 : ℕ), (200 : ℕ))]] "sepia" ⟨none, none⟩).1
      ≠ Except.ok [[sepiaPixelSpec (100, 150, 200)]] := by
  rw [processSepiaConnected _ _ _ (connect_snd_connected _),
    applySepiaAsMapSat, sepiaDemoPixel]
  simp [sepiaPixelSatDemo]

/-- C2 (amended): after `connect`, a sepia request returns
`_apply_sepia_local` of the input; that transform is the per-pixel map
applying the fixed 3×3 matrix to each channel triple and saturate-casting
each resulting channel to an 8-bit integer — rounded to the nearest integer
(ties to even) and clamped to `[0, 255]` inside `cv2.transform`, the
source's subsequent clip being a value-level no-op — it preserves the
image's dimensions, and every output channel value lies in `[0, 255]`. -/
theorem c2_sepia_correct_amended (d : CloudAgentDelegate) (img : Image)
    (kw : Kwargs) :
    (d.connect.2.process_image_remote img "sepia" kw).1
        = Except.ok (apply_sepia_local img)
    ∧ apply_sepia_local img = img.map (List.map sepiaPixelSat)
    ∧ (apply_sepia_local img).map List.length = img.map List.length
    ∧ ∀ p : Pixel, (sepiaPixelSat p).1 ≤ 255
        ∧ (sepiaPixelSat p).2.1 ≤ 255 ∧ (sepiaPixelSat p).2.2 ≤ 255 := by
  refine ⟨?_, applySepiaAsMapSat img, applySepiaMapLength img,
    fun p => ⟨saturateLe _, saturateLe _, saturateLe _⟩⟩
  rw [processSepiaConnected _ _ _ (connect_snd_connected d)]

/-- C7 counterexample: on the 400×600 demo image of constant color
(100, 150, 200), after `connect`, the sepia output is not the constant
image of the clamp-then-truncate pixel (133, 171, 192): the program's
constant pixel is (134, 171, 192), because channel 0's product 133.5
saturate-rounds to 134 rather than truncating to 133. -/
theorem c7_counterexample :
    ((CloudAgentDelegate.init none).connect.2.process_image_remote demo_image
        "sepia" ⟨none, none⟩).1
      ≠ Except.ok (List.replicate 400 (List.replicate 600
          ((133 : ℕ), (171 : ℕ), (192 : ℕ)))) := by
  rw [processSepiaConnected _ _ _ (connect_snd_connected _),
    applySepiaAsMapSat]
  unfold demo_image
  rw [List.map_replicate, List.map_replicate, sepiaPixelSatDemo]
  intro h
  have h2 := Except.ok.inj h
  rw [List.replicate_inj] at h2
  rcases h2.2 with h3 | h3
  · exact absurd h3 (by decide)
  · rw [List.replicate_inj] at h3
    rcases h3.2 with h4 | h4
    · exact absurd h4 (by decide)
    · exact absurd h4 (by decide)

/-- C7 (amended): on the 400×600 demo image of constant color
(100, 150, 200), after `connect`, the sepia operation returns the constant
image whose single pixel value is the matrix product of the fixed kernel
with (100, 150, 200), saturate-cast to uint8 (rounded to nearest, ties to
even, clamped): (134, 171, 192). -/
theorem c7_sepia_demo_amended :
    ((CloudAgentDelegate.init none).connect.2.process_image_remote demo_image
        "sepia" ⟨none, none⟩).1
      = Except.ok (List.replicate 400 (List.replicate 600
          ((134 : ℕ), (171 : ℕ), (192 : ℕ))))
    ∧ sepiaPixelSat (100, 150, 200) = (134, 171, 192) := by
  refine ⟨?_, sepiaPixelSatDemo⟩
  rw [processSepiaConnected _ _ _ (connect_snd_connected _),
    applySepiaAsMapSat]
  unfold demo_image
  rw [List.map_replicate, List.map_replicate, sepiaPixelSatDemo]
